/-
Verification of the Capora video-variant pipeline
(backend/app/api/videos.py) against its natural-language specification.

The Python module is shallowly embedded below:
  * the process-wide dict `processing_status` becomes an explicit store
    value threaded through the functions (one job at a time, since every
    operation is keyed by a single `content_id`);
  * worker completions, which in the source arrive from awaited asyncio
    tasks, become an explicit list of `Outcome`s, one per launched task,
    in the order the orchestrator's loop awaits them;
  * the database is modelled by the owning record's status
    (`Option String`: `none` = the `Content` row is absent) and by the
    list of `VideoVariant` rows a worker run persists;
  * filesystem and database effects inside a worker become fields of a
    `WorkerEnv` oracle record;
  * Python `int((k / n) * 80)` on small integers is embedded as the exact
    natural-number floor `80 * k / n` (the real-valued semantics of the
    expression; the IEEE intermediate agrees on all inputs of interest).
-/
import Mathlib

namespace Capora

/-- Worker task conclusion as observed by the orchestrator's await loop
(videos.py lines 237-255): the awaited task returned `True`, returned a
falsy value (`False`/`None`), or awaiting it raised an exception (handled
by the `except` arm at line 252). -/
inductive Outcome : Type
  | success : Outcome
  | failure : Outcome
  | exn : Outcome
deriving DecidableEq, Repr

/-- One entry of the process-wide `processing_status` dict (videos.py
lines 211-219).  `startTime` is not modelled (wall-clock time).  The
fatal-error handler at lines 292-296 stores a dict with only
`status`/`progress`/`error` keys; we represent it with the same structure,
the list fields empty. -/
structure Entry : Type where
  status : String
  progress : Nat
  currentPlatform : String
  completed : List String
  failed : List String
  error : Option String
deriving DecidableEq, Repr

/-- The entry written at admission (videos.py lines 212-219). -/
def initEntry : Entry :=
  { status := "processing", progress := 0, currentPlatform := "",
    completed := [], failed := [], error := none }

/-- Result of one orchestrator run: the final store entry for the job, the
owning record's durable status afterwards, and the sequence of values
written to the entry's `progress` field, in program order. -/
structure RunResult : Type where
  entry : Entry
  record : Option String
  writes : List Nat
deriving DecidableEq, Repr

/-- The await loop of `create_video_variants` (videos.py lines 237-255),
one task per element of `l` (platform paired with how its awaited task
concludes).  `n` is `total_platforms`, `k` is `completed_count` at the top
of the iteration.  Each iteration first writes `current_platform` and
`progress = int((k / n) * 80)` (lines 239-240), then awaits the task.

`del?` models interference from the `delete_content` endpoint (videos.py
lines 604-605), which runs on the same event loop and removes the job's
`processing_status` entry: `some 0` means the removal happens while the
current iteration is suspended in `await task` (line 242).  On resumption
the handler's accesses `processing_status[content_id][...]` (lines 246,
249, and 254 inside the `except` arm) raise `KeyError` on the now-missing
key, so the outer handler (lines 290-296) replaces the entry with
`{status: "failed", progress: 0, error: ...}` and the run ends without
touching the database.  The returned Bool is true when that fatal path
fired. -/
def runLoop (n : Nat) : List (String × Outcome) → Nat → Option Nat →
    Entry → List Nat → Entry × List Nat × Bool
  | [], _, _, e, ws => (e, ws, false)
  | (p, o) :: rest, k, del?, e, ws =>
    let w := 80 * k / n
    let e1 := { e with currentPlatform := p, progress := w }
    let ws1 := ws ++ [w]
    match del? with
    | some 0 =>
      ({ status := "failed", progress := 0, currentPlatform := "",
         completed := [], failed := [],
         error := some "KeyError" }, ws1 ++ [0], true)
    | some (i + 1) =>
      let e2 :=
        match o with
        | Outcome.success => { e1 with completed := e1.completed ++ [p] }
        | _ => { e1 with failed := e1.failed ++ [p] }
      runLoop n rest (k + 1) (some i) e2 ws1
    | none =>
      let e2 :=
        match o with
        | Outcome.success => { e1 with completed := e1.completed ++ [p] }
        | _ => { e1 with failed := e1.failed ++ [p] }
      runLoop n rest (k + 1) none e2 ws1

/-- `create_video_variants` (videos.py lines 201-296): create the entry,
await every per-platform task, then finalize: write `progress = 100` and
`current_platform = ""` (lines 258-259), look the owning `Content` row up
and, when present, set the record status to `ready`/`failed` and the entry
status to `completed`/`failed` according to whether any platform succeeded
(lines 267-275).  `record` is the `Content` row's status (`none` = row
absent, in which case neither status is written, lines 267-268).  `os`
lists how each awaited task concludes; `del?` as in `runLoop`.  The
retention deletion after the 60-second sleep (lines 286-288) removes the
entry unchanged and is not part of the returned final state. -/
def create_video_variants (ps : List String) (os : List Outcome)
    (record : Option String) (del? : Option Nat) : RunResult :=
  let r := runLoop ps.length (ps.zip os) 0 del? initEntry [0]
  if r.2.2 then
    { entry := r.1, record := record, writes := r.2.1 }
  else
    let e := { r.1 with progress := 100, currentPlatform := "" }
    match record with
    | none => { entry := e, record := none, writes := r.2.1 ++ [100] }
    | some _ =>
      if e.completed = [] then
        { entry := { e with status := "failed" }, record := some "failed",
          writes := r.2.1 ++ [100] }
      else
        { entry := { e with status := "completed" }, record := some "ready",
          writes := r.2.1 ++ [100] }

/-- The store state observable after the admission write plus the first
`i` await-loop iterations of an interference-free run (used to state the
"at every point in its lifetime" invariant). -/
def stateAfter (ps : List String) (os : List Outcome) (i : Nat) : Entry :=
  (runLoop ps.length ((ps.zip os).take i) 0 none initEntry [0]).1

/-- The response body of `GET /status/{content_id}` (the fields of
`VideoProcessingStatus` the endpoint fills in, videos.py lines 542-546). -/
structure StatusResponse : Type where
  content_id : String
  status : String
  progress : Nat
deriving DecidableEq, Repr

/-- `get_processing_status` (videos.py lines 538-546): read the job's
entry from the store (`store` maps a content id to its live entry, if
any); when absent, `dict.get`'s default `{"status": "not_found",
"progress": 0}` is used.  The function is total: the absence of the entry
never raises. -/
def get_processing_status (store : String → Option Entry)
    (content_id : String) : StatusResponse :=
  match store content_id with
  | some e => { content_id := content_id, status := e.status,
                progress := e.progress }
  | none => { content_id := content_id, status := "not_found",
              progress := 0 }

/-- One entry of the `platform_specs` dict local to `process_video_fast`
(videos.py lines 133-164). -/
structure FastSpec : Type where
  aspect_ratio : String
  width : Nat
  height : Nat
  description : String
deriving DecidableEq, Repr

/-- The `platform_specs` association list of `process_video_fast`
(videos.py lines 133-164). -/
def fastSpecs : List (String × FastSpec) :=
  [("tiktok", ⟨"9:16", 1080, 1920, "TikTok vertical format"⟩),
   ("instagram", ⟨"9:16", 1080, 1920, "Instagram Reels vertical format"⟩),
   ("youtube_shorts", ⟨"9:16", 1080, 1920, "YouTube Shorts vertical format"⟩),
   ("facebook", ⟨"1:1", 1080, 1080, "Facebook square format"⟩),
   ("twitter", ⟨"16:9", 1280, 720, "Twitter landscape format"⟩)]

/-- `platform_specs.get(platform, platform_specs["tiktok"])`
(videos.py line 166): unknown platforms fall back to the tiktok profile. -/
def fastSpecFor (platform : String) : FastSpec :=
  ((fastSpecs.lookup platform).getD
    ⟨"9:16", 1080, 1920, "TikTok vertical format"⟩)

/-- The `platform_specs` dict local to `process_platform_variant`
(videos.py lines 364-370), giving the width/height recorded on the
Variant row, and its lookup with default `{"width": 1080, "height": 1920}`
(line 372). -/
def variantSpecFor (platform : String) : Nat × Nat :=
  (([("tiktok", (1080, 1920)), ("instagram", (1080, 1920)),
     ("youtube_shorts", (1080, 1920)), ("facebook", (1080, 1080)),
     ("twitter", (1280, 720))] : List (String × Nat × Nat)).lookup
    platform).getD (1080, 1920)

/-- The keys of the platform registries above. -/
def knownPlatforms : List String :=
  ["tiktok", "instagram", "youtube_shorts", "facebook", "twitter"]

/-- Filesystem / database effects one `process_platform_variant` call
observes, as an oracle record (the source performs them through
`os.path`, `shutil` and a fresh `SessionLocal`). -/
structure WorkerEnv : Type where
  /-- `os.path.exists(original_file_path)` (line 327). -/
  originalExists : Bool
  /-- `shutil.copy2` (line 177) raised.  -/
  copyRaises : Bool
  /-- `os.path.exists(output_path)` right after the copy (line 180). -/
  outputExistsAfterCopy : Bool
  /-- `os.path.exists(output_path)` at the verification step (line 347). -/
  outputExistsAtVerify : Bool
  /-- `os.path.getsize(output_path)` (line 351). -/
  outputSize : Nat
  /-- the `SessionLocal()` / `db_session.add` / `db_session.commit`
  sequence up to and including the commit succeeded (lines 360-389);
  when one of them raises, the transaction never commits and no row is
  persisted. -/
  dbCommitOk : Bool
  /-- the statements after the successful commit — `db_session.refresh`
  (line 390), the logging, and `db_session.close` (line 394) — ran
  without raising; when one of them raises, the handler at lines 398-400
  still returns `False`, although the already-committed Variant row
  durably survives. -/
  dbRefreshCloseOk : Bool
deriving DecidableEq, Repr

/-- `process_video_fast` (videos.py lines 122-199): copy the source to the
output path and report `True` only when the copy ran and the output file
exists afterwards (line 180-191).  A copy error returns `False`
(lines 193-195); when the copy runs but the output is missing the
function falls through and returns `None`, which the caller treats as
falsy — both are embedded as `false`.  No exception escapes (outer
handler, lines 197-199). -/
def process_video_fast (env : WorkerEnv) (platform : String) : Bool :=
  let _spec := fastSpecFor platform
  if env.copyRaises then false
  else env.outputExistsAfterCopy

/-- A persisted `VideoVariant` row (videos.py lines 375-386), restricted
to its deterministic fields (`id`, the timestamped URLs and `duration`
depend on `uuid`/wall-clock/ffprobe values that the claims do not
mention). -/
structure VariantRow : Type where
  content_id : String
  platform : String
  width : Nat
  height : Nat
  file_size : Nat
  status : String
deriving DecidableEq, Repr

/-- `process_platform_variant` (videos.py lines 298-406): check the source
file, run `process_video_fast`, verify the output exists and is at least
10 bytes (lines 347-356), then persist one Variant row inside the inner
`try` (lines 359-396): `add; commit; refresh; log; close; return True`.
Any exception in that block is caught and returned as `False`
(lines 398-400) — but the commit at line 389 is the persistence point, so
an exception raised after it (in `refresh`, the logging, or `close`)
returns `False` while the committed row durably survives.  Every failure
mode is a `false` return, never an escaping exception (outer handler,
lines 402-406).  Returns the boolean outcome paired with the list of
Variant rows this run committed. -/
def process_platform_variant (env : WorkerEnv) (content_id platform : String) :
    Bool × List VariantRow :=
  if ¬ env.originalExists then (false, [])
  else if ¬ process_video_fast env platform then (false, [])
  else if ¬ env.outputExistsAtVerify then (false, [])
  else if env.outputSize < 10 then (false, [])
  else if ¬ env.dbCommitOk then (false, [])
  else if env.dbRefreshCloseOk then
    (true, [{ content_id := content_id, platform := platform,
              width := (variantSpecFor platform).1,
              height := (variantSpecFor platform).2,
              file_size := env.outputSize, status := "completed" }])
  else
    (false, [{ content_id := content_id, platform := platform,
               width := (variantSpecFor platform).1,
               height := (variantSpecFor platform).2,
               file_size := env.outputSize, status := "completed" }])

/-- `platform_list = json.loads(platforms) if platforms else
["instagram", "tiktok"]`, with the bare `except` substituting the same
default (videos.py lines 426-429).  `parse` embeds `json.loads`
restricted to arrays of strings: `none` means the call raised (invalid
JSON). -/
def parsePlatforms (parse : String → Option (List String))
    (platforms : String) : List String :=
  if platforms = "" then ["instagram", "tiktok"]
  else
    match parse platforms with
    | some l => l
    | none => ["instagram", "tiktok"]

/-- The accepted upload extensions (videos.py line 422). -/
def videoExtensions : List String :=
  [".mp4", ".mov", ".avi", ".mkv", ".webm", ".flv", ".wmv", ".m4v"]

/-- Embeds `file.filename.lower().endswith((...))` (videos.py line 422)
over the character list: per-character lowercasing followed by a suffix
test against each accepted extension (Python str.lower acts per
character; the test filenames are ASCII). -/
def validVideoFilename (filename : String) : Bool :=
  videoExtensions.any
    (fun ext => ext.data.isSuffixOf (filename.data.map Char.toLower))

/-- An HTTP error response (`HTTPException`). -/
structure HttpError : Type where
  status_code : Nat
  detail : String
deriving DecidableEq, Repr

/-- What a successful `POST /upload` leaves behind (videos.py
lines 452-486): the `Content` row inserted (id, title, status,
platforms), the arguments handed to the `create_video_variants`
background task, and the response status string. -/
structure UploadResult : Type where
  contentId : String
  contentTitle : String
  contentStatus : String
  contentPlatforms : List String
  taskPlatforms : List String
  responseStatus : String
deriving DecidableEq, Repr

/-- `upload_video` (videos.py lines 408-497): reject a bad extension with
HTTP 400 (lines 421-423), parse the `platforms` form field with the
silent default (lines 426-429), insert the `Content` row with status
"processing" and `platforms = platform_list` (lines 452-468; a failing
insert rolls back and returns HTTP 500, lines 488-491), schedule
`create_video_variants` over the same `platform_list` (lines 471-478).
No validation of the parsed platform list happens anywhere. -/
def upload_video (parse : String → Option (List String))
    (filename title platforms content_id : String) (dbOk : Bool) :
    Except HttpError UploadResult :=
  if ¬ validVideoFilename filename then
    Except.error { status_code := 400, detail := "Invalid video format" }
  else
    let platform_list := parsePlatforms parse platforms
    if ¬ dbOk then
      Except.error { status_code := 500, detail := "Database error" }
    else
      Except.ok
        { contentId := content_id,
          contentTitle := if title = "" then "Untitled Video" else title,
          contentStatus := "processing",
          contentPlatforms := platform_list,
          taskPlatforms := platform_list,
          responseStatus := "processing" }

/-! ### Characterization of the orchestrator loop -/

/-- Shifting the index of the progress-write formula by one. -/
lemma writes_shift (n k m : Nat) :
    (List.range (m + 1)).map (fun j => 80 * (k + j) / n) =
      (80 * k / n) :: (List.range m).map (fun j => 80 * (k + 1 + j) / n) := by
  rw [List.range_succ_eq_map, List.map_cons, List.map_map]
  refine congrArg₂ _ (by simp) ?_
  refine List.map_congr_left fun j _ => ?_
  have : k + Nat.succ j = k + 1 + j := by omega
  simp [Function.comp, this]

/-- Whether an awaited task returned `True` (the `if success:` test at
videos.py line 245; `False` and a raised exception both take the
failed-platform branch). -/
def isSucc : Outcome → Bool
  | Outcome.success => true
  | _ => false

/-- An interference-free loop run: the fatal flag stays clear, the status
and error fields are untouched, each task lands in `completed` or
`failed` according to its own outcome, and the progress writes are
`80 * (k + j) / n` for `j` below the number of tasks. -/
lemma runLoop_none_proj (n : Nat) :
    ∀ (l : List (String × Outcome)) (k : Nat) (e : Entry) (ws : List Nat),
      (runLoop n l k none e ws).2.2 = false ∧
      (runLoop n l k none e ws).1.status = e.status ∧
      (runLoop n l k none e ws).1.error = e.error ∧
      (runLoop n l k none e ws).1.completed =
        e.completed ++ (l.filter (fun x => isSucc x.2)).map Prod.fst ∧
      (runLoop n l k none e ws).1.failed =
        e.failed ++ (l.filter (fun x => ! isSucc x.2)).map Prod.fst ∧
      (runLoop n l k none e ws).2.1 =
        ws ++ (List.range l.length).map (fun j => 80 * (k + j) / n) := by
  intro l
  induction l with
  | nil => intro k e ws; simp [runLoop]
  | cons hd tl ih =>
    intro k e ws
    obtain ⟨p, o⟩ := hd
    have hsh := writes_shift n k tl.length
    cases o
    case success =>
      obtain ⟨h1, h2, h3, h4, h5, h6⟩ :=
        ih (k + 1)
          { e with currentPlatform := p, progress := 80 * k / n,
                   completed := e.completed ++ [p] }
          (ws ++ [80 * k / n])
      refine ⟨?_, ?_, ?_, ?_, ?_, ?_⟩ <;>
        simp [runLoop, isSucc, h1, h2, h3, h4, h5, h6, hsh]
    case failure =>
      obtain ⟨h1, h2, h3, h4, h5, h6⟩ :=
        ih (k + 1)
          { e with currentPlatform := p, progress := 80 * k / n,
                   failed := e.failed ++ [p] }
          (ws ++ [80 * k / n])
      refine ⟨?_, ?_, ?_, ?_, ?_, ?_⟩ <;>
        simp [runLoop, isSucc, h1, h2, h3, h4, h5, h6, hsh]
    case exn =>
      obtain ⟨h1, h2, h3, h4, h5, h6⟩ :=
        ih (k + 1)
          { e with currentPlatform := p, progress := 80 * k / n,
                   failed := e.failed ++ [p] }
          (ws ++ [80 * k / n])
      refine ⟨?_, ?_, ?_, ?_, ?_, ?_⟩ <;>
        simp [runLoop, isSucc, h1, h2, h3, h4, h5, h6, hsh]

/-- A run in which the entry is deleted while iteration `i` is suspended
in its await: iterations up to `i` write their progress values, then the
fatal handler replaces the entry and appends the final `0` write. -/
lemma runLoop_some_proj (n : Nat) :
    ∀ (l : List (String × Outcome)) (i k : Nat) (e : Entry) (ws : List Nat),
      i < l.length →
      runLoop n l k (some i) e ws =
        (⟨"failed", 0, "", [], [], some "KeyError"⟩,
         (ws ++ (List.range (i + 1)).map (fun j => 80 * (k + j) / n)) ++ [0],
         true) := by
  intro l
  induction l with
  | nil => intro i k e ws h; simp at h
  | cons hd tl ih =>
    intro i k e ws h
    obtain ⟨p, o⟩ := hd
    cases i with
    | zero => cases o <;> simp [runLoop, List.range_succ]
    | succ i =>
      have hi : i < tl.length := by simpa using h
      have hrec : ∀ (e' : Entry) (ws' : List Nat),
          runLoop n tl (k + 1) (some i) e' ws' =
            (⟨"failed", 0, "", [], [], some "KeyError"⟩,
             (ws' ++ (List.range (i + 1)).map (fun j => 80 * (k + 1 + j) / n))
               ++ [0], true) :=
        fun e' ws' => ih i (k + 1) e' ws' hi
      have hsh := writes_shift n k (i + 1)
      cases o <;> simp [runLoop, hrec, hsh, List.append_assoc]

/-- The final entry of an interference-free orchestrator run. -/
lemma create_none_entry (ps : List String) (os : List Outcome)
    (record : Option String) :
    (create_video_variants ps os record none).entry =
      { status :=
          match record with
          | none => "processing"
          | some _ =>
            if ((ps.zip os).filter (fun x => isSucc x.2)).map Prod.fst = []
            then "failed" else "completed",
        progress := 100, currentPlatform := "",
        completed := ((ps.zip os).filter (fun x => isSucc x.2)).map Prod.fst,
        failed := ((ps.zip os).filter (fun x => ! isSucc x.2)).map Prod.fst,
        error := none } := by
  obtain ⟨h1, h2, h3, h4, h5, h6⟩ :=
    runLoop_none_proj ps.length (ps.zip os) 0 initEntry [0]
  simp only [initEntry, List.nil_append] at h1 h2 h3 h4 h5 h6
  cases record with
  | none => simp [create_video_variants, initEntry, h1, h2, h3, h4, h5]
  | some s =>
    by_cases hE :
        ((ps.zip os).filter (fun x => isSucc x.2)).map Prod.fst = [] <;>
      simp [create_video_variants, initEntry, h1, h2, h3, h4, h5, hE]

/-- The record status written by an interference-free orchestrator run
when the owning `Content` row exists. -/
lemma create_none_record (ps : List String) (os : List Outcome) (s : String) :
    (create_video_variants ps os (some s) none).record =
      some (if ((ps.zip os).filter (fun x => isSucc x.2)).map Prod.fst = []
            then "failed" else "ready") := by
  obtain ⟨h1, h2, h3, h4, h5, h6⟩ :=
    runLoop_none_proj ps.length (ps.zip os) 0 initEntry [0]
  simp only [initEntry, List.nil_append] at h1 h2 h3 h4 h5 h6
  by_cases hE :
      ((ps.zip os).filter (fun x => isSucc x.2)).map Prod.fst = [] <;>
    simp [create_video_variants, initEntry, h1, h2, h3, h4, h5, hE]

/-- The progress writes of an interference-free orchestrator run. -/
lemma create_none_writes (ps : List String) (os : List Outcome)
    (record : Option String) :
    (create_video_variants ps os record none).writes =
      0 :: (List.range (ps.zip os).length).map (fun j => 80 * j / ps.length)
        ++ [100] := by
  obtain ⟨h1, h2, h3, h4, h5, h6⟩ :=
    runLoop_none_proj ps.length (ps.zip os) 0 initEntry [0]
  simp only [initEntry, List.nil_append] at h1 h2 h3 h4 h5 h6
  cases record with
  | none => simp [create_video_variants, initEntry, h1, h6]
  | some s =>
    by_cases hE :
        ((ps.zip os).filter (fun x => isSucc x.2)).map Prod.fst = [] <;>
      simp [create_video_variants, initEntry, h1, h4, h6, hE]

/-- The progress value written for any concluded-worker count never
exceeds 80. -/
lemma div80_le (n j : Nat) (h : j ≤ n) : 80 * j / n ≤ 80 := by
  cases n with
  | zero =>
    have hj : j = 0 := Nat.le_zero.mp h
    simp [hj]
  | succ m =>
    calc 80 * j / (m + 1) ≤ 80 * (m + 1) / (m + 1) :=
          Nat.div_le_div_right (Nat.mul_le_mul_left _ h)
      _ = 80 := Nat.mul_div_cancel _ (Nat.succ_pos m)

/-- Every task lands in exactly one of the two buckets. -/
lemma filter_length_split (l : List (String × Outcome)) :
    (l.filter (fun x => isSucc x.2)).length +
      (l.filter (fun x => ! isSucc x.2)).length = l.length := by
  induction l with
  | nil => rfl
  | cons a l ih =>
    cases h : isSucc a.2 <;> simp [List.filter_cons, h] <;> omega

/-- The last element of a list ending in a singleton. -/
lemma getLast?_append_singleton (l : List Nat) (a : Nat) :
    (l ++ [a]).getLast? = some a :=
  List.getLast?_concat l

/-- Completed-set projection of the mid-run state. -/
lemma stateAfter_completed (ps : List String) (os : List Outcome) (i : Nat) :
    (stateAfter ps os i).completed =
      (((ps.zip os).take i).filter (fun x => isSucc x.2)).map Prod.fst := by
  obtain ⟨-, -, -, h4, -, -⟩ :=
    runLoop_none_proj ps.length ((ps.zip os).take i) 0 initEntry [0]
  simpa [stateAfter, initEntry] using h4

/-- Failed-set projection of the mid-run state. -/
lemma stateAfter_failed (ps : List String) (os : List Outcome) (i : Nat) :
    (stateAfter ps os i).failed =
      (((ps.zip os).take i).filter (fun x => ! isSucc x.2)).map Prod.fst := by
  obtain ⟨-, -, -, -, h5, -⟩ :=
    runLoop_none_proj ps.length ((ps.zip os).take i) 0 initEntry [0]
  simpa [stateAfter, initEntry] using h5

/-- A successful worker run committed exactly the one expected row. -/
lemma worker_rows_of_success (env : WorkerEnv) (cid p : String)
    (h : (process_platform_variant env cid p).1 = true) :
    (process_platform_variant env cid p).2 =
      [{ content_id := cid, platform := p,
         width := (variantSpecFor p).1, height := (variantSpecFor p).2,
         file_size := env.outputSize, status := "completed" }] := by
  obtain ⟨oe, cr, oec, oev, sz, db, dr⟩ := env
  by_cases hsz : sz < 10
  · cases oe <;> cases cr <;> cases oec <;> cases oev <;> cases db <;>
      cases dr <;>
      simp_all [process_platform_variant, process_video_fast, hsz]
  · cases oe <;> cases cr <;> cases oec <;> cases oev <;> cases db <;>
      cases dr <;>
      simp_all [process_platform_variant, process_video_fast, if_neg hsz]

/-! ### Claims -/

/-- C1, counterexample: the status query performs no durable fallback.
With no live entry for "abc" — regardless of the owning record's durable
status, which `get_processing_status` never reads (it takes only the
`processing_status` store, videos.py line 541) — the endpoint returns
`{status: "not_found", progress: 0}`, not the claimed synthesis
`ready → {completed, 100}` / other → `{unknown}`. -/
theorem statusQuery_no_durable_fallback_cex :
    get_processing_status (fun _ => none) "abc" =
      { content_id := "abc", status := "not_found", progress := 0 } ∧
    ¬ (get_processing_status (fun _ => none) "abc").status = "completed" ∧
    ¬ (get_processing_status (fun _ => none) "abc").status = "unknown" ∧
    ¬ (get_processing_status (fun _ => none) "abc").progress = 100 := by
  exact ⟨rfl, by decide, by decide, by decide⟩

/-- C1, amended: when the Job Status Store holds no live entry for the
queried id, the status query returns `{status: "not_found", progress: 0}`
without consulting the owning record's durable status, and it never
raises merely because the entry is absent (the embedding is a total
function). -/
theorem statusQuery_absent_entry_amended (store : String → Option Entry)
    (content_id : String) (h : store content_id = none) :
    get_processing_status store content_id =
      { content_id := content_id, status := "not_found", progress := 0 } := by
  simp [get_processing_status, h]

/-- Witness for the C1 amended theorem at a concrete store and id. -/
theorem statusQuery_absent_entry_amended_witness :
    ((fun _ : String => (none : Option Entry)) "xyz" = none) ∧
    get_processing_status (fun _ => none) "xyz" =
      { content_id := "xyz", status := "not_found", progress := 0 } :=
  ⟨rfl, statusQuery_absent_entry_amended (fun _ => none) "xyz" rfl⟩

/-- C2: once every worker of a job has concluded, the orchestrator sets
progress to 100, sets the job status to "completed" when at least one
target succeeded and to "failed" otherwise, and sets the owning record's
durable status to "ready" when at least one target succeeded and to
"failed" otherwise (videos.py lines 257-278); in particular a partial
success yields job status "completed" and record status "ready". -/
theorem orchestrator_finalization (ps : List String) (os : List Outcome)
    (s : String) :
    (create_video_variants ps os (some s) none).entry.progress = 100 ∧
    ((create_video_variants ps os (some s) none).entry.completed = [] →
      (create_video_variants ps os (some s) none).entry.status = "failed" ∧
      (create_video_variants ps os (some s) none).record = some "failed") ∧
    ((create_video_variants ps os (some s) none).entry.completed ≠ [] →
      (create_video_variants ps os (some s) none).entry.status = "completed" ∧
      (create_video_variants ps os (some s) none).record = some "ready") := by
  by_cases hE :
      ((ps.zip os).filter (fun x => isSucc x.2)).map Prod.fst = [] <;>
    simp [create_none_entry, create_none_record, hE]

/-- Witness for C2 at a partial-success run: one target succeeds, one
fails, the job ends "completed" and the record ends "ready". -/
theorem orchestrator_finalization_witness :
    (create_video_variants ["tiktok", "twitter"]
        [Outcome.success, Outcome.failure] (some "processing")
        none).entry.completed ≠ [] ∧
    ((create_video_variants ["tiktok", "twitter"]
        [Outcome.success, Outcome.failure] (some "processing")
        none).entry.status = "completed" ∧
     (create_video_variants ["tiktok", "twitter"]
        [Outcome.success, Outcome.failure] (some "processing")
        none).record = some "ready") :=
  ⟨by decide,
   (orchestrator_finalization ["tiktok", "twitter"]
      [Outcome.success, Outcome.failure] "processing").2.2 (by decide)⟩

/-- C6, counterexample: the worker's side effect is not atomic.  In an
environment where the source exists, the transform and verification
succeed, and the `add`/`commit` of the Variant row succeeds, but
`db_session.refresh` (videos.py line 390) or `close` (line 394) then
raises, the handler at lines 398-400 returns `False` — a failure outcome
— while the committed Variant row durably survives: a failure after which
one row of that run exists, refuting "nothing durable survives". -/
theorem worker_post_commit_row_survives_cex :
    (process_platform_variant ⟨true, false, true, true, 100, true, false⟩
        "c" "tiktok").1 = false ∧
    (process_platform_variant ⟨true, false, true, true, 100, true, false⟩
        "c" "tiktok").2 =
      [{ content_id := "c", platform := "tiktok", width := 1080,
         height := 1920, file_size := 100, status := "completed" }] := by
  exact ⟨by decide, by decide⟩

/-- C6, amended: the worker returns success exactly when the source
existed, the transform produced an output that still exists at
verification time with size meeting the 10-byte threshold, the single
Variant row was committed, and the post-commit steps (refresh, logging,
close) also succeeded; no exception escapes the worker (the embedding is
a total function, matching the catch-all handlers at videos.py
lines 193-199, 398-400 and 402-406); a failure before the commit leaves
no row of this run, and on success exactly one row exists — but a
failure caused after a successful commit leaves that one committed row
durably behind. -/
theorem worker_success_contract_amended (env : WorkerEnv) (cid p : String) :
    ((process_platform_variant env cid p).1 = true ↔
      (env.originalExists = true ∧ process_video_fast env p = true ∧
       env.outputExistsAtVerify = true ∧ 10 ≤ env.outputSize ∧
       env.dbCommitOk = true ∧ env.dbRefreshCloseOk = true)) ∧
    (process_platform_variant env cid p).2.length =
      (if env.originalExists = true ∧ process_video_fast env p = true ∧
          env.outputExistsAtVerify = true ∧ 10 ≤ env.outputSize ∧
          env.dbCommitOk = true
       then 1 else 0) ∧
    ((process_platform_variant env cid p).1 = true →
      (process_platform_variant env cid p).2.length = 1) := by
  obtain ⟨oe, cr, oec, oev, sz, db, dr⟩ := env
  by_cases hsz : sz < 10
  · have hsz' : ¬ 10 ≤ sz := by omega
    cases oe <;> cases cr <;> cases oec <;> cases oev <;> cases db <;>
      cases dr <;>
      simp [process_platform_variant, process_video_fast, hsz, hsz']
  · have hsz' : 10 ≤ sz := by omega
    cases oe <;> cases cr <;> cases oec <;> cases oev <;> cases db <;>
      cases dr <;>
      simp [process_platform_variant, process_video_fast, hsz, hsz']

/-- Witness for the C6 amended theorem at a fully healthy environment:
the worker succeeds and has committed exactly one row. -/
theorem worker_success_contract_amended_witness :
    (process_platform_variant ⟨true, false, true, true, 100, true, true⟩
        "c" "tiktok").1 = true ∧
    (process_platform_variant ⟨true, false, true, true, 100, true, true⟩
        "c" "tiktok").2.length = 1 := by
  have h := worker_success_contract_amended
    ⟨true, false, true, true, 100, true, true⟩ "c" "tiktok"
  exact ⟨h.1.mpr (by decide), h.2.2 (h.1.mpr (by decide))⟩

/-- C8: each task's platform is appended to `completed` or to `failed`
purely according to that task's own conclusion — an exception while
awaiting one task is caught at the call site (videos.py lines 252-255)
and recorded exactly like a `False` return — so a fault in one target
neither removes nor blocks any sibling's conclusion, and the orchestrator
still runs to its final `progress = 100` write. -/
theorem worker_fault_isolation (ps : List String) (os : List Outcome)
    (s : String) :
    (create_video_variants ps os (some s) none).entry.completed =
      ((ps.zip os).filter (fun x => isSucc x.2)).map Prod.fst ∧
    (create_video_variants ps os (some s) none).entry.failed =
      ((ps.zip os).filter (fun x => ! isSucc x.2)).map Prod.fst ∧
    (create_video_variants ps os (some s) none).entry.progress = 100 := by
  simp [create_none_entry]

/-- C9: a Submit whose `platforms` form field is the empty string, or is
a string `json.loads` rejects, is not refused: the upload silently
substitutes the default target list `["instagram", "tiktok"]` and
proceeds to create the owning record in "processing" state and to start
the pipeline over those two targets (videos.py lines 426-429). -/
theorem default_platforms_on_bad_input
    (parse : String → Option (List String))
    (filename title platforms cid : String)
    (hf : validVideoFilename filename = true)
    (hp : platforms = "" ∨ parse platforms = none) :
    parsePlatforms parse platforms = ["instagram", "tiktok"] ∧
    upload_video parse filename title platforms cid true =
      Except.ok
        { contentId := cid,
          contentTitle := if title = "" then "Untitled Video" else title,
          contentStatus := "processing",
          contentPlatforms := ["instagram", "tiktok"],
          taskPlatforms := ["instagram", "tiktok"],
          responseStatus := "processing" } := by
  have hpp : parsePlatforms parse platforms = ["instagram", "tiktok"] := by
    rcases hp with h | h <;> simp [parsePlatforms, h]
  exact ⟨hpp, by simp [upload_video, hf, hpp]⟩

/-- Witness for C9 at a concrete unparsable form field. -/
theorem default_platforms_on_bad_input_witness :
    (validVideoFilename "a.mp4" = true ∧
     (("not json" : String) = "" ∨
       (fun _ : String => (none : Option (List String))) "not json" = none)) ∧
    parsePlatforms (fun _ => none) "not json" = ["instagram", "tiktok"] :=
  ⟨⟨by decide, Or.inr rfl⟩,
   (default_platforms_on_bad_input (fun _ => none) "a.mp4" "t" "not json"
      "cid" (by decide) (Or.inr rfl)).1⟩

/-- C10: a platform id outside the registry is never rejected: the
transform step looks its profile up with the tiktok profile as default
(videos.py line 166), the worker's success does not depend on the
platform id at all, and a successful run for an unknown platform persists
one Variant row with the default dimensions 1080x1920 (videos.py
line 372). -/
theorem unknown_platform_fallback (p : String) (hp : p ∉ knownPlatforms)
    (env : WorkerEnv) (cid : String) :
    fastSpecFor p = fastSpecFor "tiktok" ∧
    variantSpecFor p = (1080, 1920) ∧
    (process_platform_variant env cid p).1 =
      (process_platform_variant env cid "tiktok").1 ∧
    ((process_platform_variant env cid p).1 = true →
      (process_platform_variant env cid p).2 =
        [{ content_id := cid, platform := p, width := 1080, height := 1920,
           file_size := env.outputSize, status := "completed" }]) := by
  simp only [knownPlatforms, List.mem_cons, List.mem_singleton,
    List.not_mem_nil, not_or] at hp
  obtain ⟨h1, h2, h3, h4, h5, -⟩ := hp
  have b1 : (p == "tiktok") = false := beq_eq_false_iff_ne.mpr h1
  have b2 : (p == "instagram") = false := beq_eq_false_iff_ne.mpr h2
  have b3 : (p == "youtube_shorts") = false := beq_eq_false_iff_ne.mpr h3
  have b4 : (p == "facebook") = false := beq_eq_false_iff_ne.mpr h4
  have b5 : (p == "twitter") = false := beq_eq_false_iff_ne.mpr h5
  have hv : variantSpecFor p = (1080, 1920) := by
    simp [variantSpecFor, List.lookup, b1, b2, b3, b4, b5]
  have hfspec : fastSpecFor p = fastSpecFor "tiktok" := by
    simp [fastSpecFor, fastSpecs, List.lookup, b1, b2, b3, b4, b5]
  refine ⟨hfspec, hv, ?_, ?_⟩
  · obtain ⟨oe, cr, oec, oev, sz, db, dr⟩ := env
    by_cases hsz : sz < 10 <;>
      cases oe <;> cases cr <;> cases oec <;> cases oev <;> cases db <;>
        cases dr <;>
        simp [process_platform_variant, process_video_fast, hsz]
  · intro hs
    rw [worker_rows_of_success env cid p hs, hv]

/-- Witness for C10: a worker run for the unregistered platform
"snapchat" succeeds and persists a 1080x1920 Variant row. -/
theorem unknown_platform_fallback_witness :
    ("snapchat" ∉ knownPlatforms) ∧
    (process_platform_variant ⟨true, false, true, true, 123, true, true⟩
        "c" "snapchat").2 =
      [{ content_id := "c", platform := "snapchat", width := 1080,
         height := 1920, file_size := 123, status := "completed" }] :=
  ⟨by decide,
   (unknown_platform_fallback "snapchat" (by decide)
      ⟨true, false, true, true, 123, true, true⟩ "c").2.2.2 (by decide)⟩

/-- C7, counterexample: a Submit whose `platforms` form field is the JSON
text "[]" (so the parsed target list is empty) is not rejected: the
upload returns success, the owning record is created in "processing"
state with an empty platform list (durable state), and the pipeline run
over zero targets creates the job entry (ephemeral state) and finalizes
it as "failed" with the record set to "failed" — no AdmissionError
exists anywhere on this path (videos.py lines 426-478). -/
theorem empty_targets_accepted_cex :
    upload_video (fun s => if s = "[]" then some [] else none)
        "clip.mp4" "t" "[]" "cid" true =
      Except.ok
        { contentId := "cid", contentTitle := "t",
          contentStatus := "processing", contentPlatforms := [],
          taskPlatforms := [], responseStatus := "processing" } ∧
    (create_video_variants [] [] (some "processing") none).entry.status
      = "failed" ∧
    (create_video_variants [] [] (some "processing") none).entry.progress
      = 100 ∧
    (create_video_variants [] [] (some "processing") none).record
      = some "failed" := by
  exact ⟨rfl, by decide, by decide, by decide⟩

/-- C7, amended: a Submit with targets `[]` is accepted, not rejected:
the owning record is created in "processing" state and the pipeline is
started with zero targets; the zero-target job entry is created and
immediately finalized with status "failed" and progress 100, and the
record's durable status is set to "failed". -/
theorem empty_targets_amended (parse : String → Option (List String))
    (filename title cid : String)
    (hf : validVideoFilename filename = true)
    (hp : parse "[]" = some []) :
    upload_video parse filename title "[]" cid true =
      Except.ok
        { contentId := cid,
          contentTitle := if title = "" then "Untitled Video" else title,
          contentStatus := "processing", contentPlatforms := [],
          taskPlatforms := [], responseStatus := "processing" } ∧
    create_video_variants [] [] (some "processing") none =
      { entry := { status := "failed", progress := 100,
                   currentPlatform := "", completed := [], failed := [],
                   error := none },
        record := some "failed", writes := [0, 100] } := by
  constructor
  · have hne : ¬ ("[]" : String) = "" := by decide
    simp [upload_video, hf, parsePlatforms, hne, hp]
  · decide

/-- Witness for the C7 amended theorem at a concrete parser and upload. -/
theorem empty_targets_amended_witness :
    (validVideoFilename "clip.mp4" = true ∧
     (fun s => if s = "[]" then some ([] : List String) else none) "[]"
       = some []) ∧
    upload_video (fun s => if s = "[]" then some [] else none)
        "clip.mp4" "" "[]" "cid" true =
      Except.ok
        { contentId := "cid",
          contentTitle := if ("" : String) = "" then "Untitled Video" else "",
          contentStatus := "processing", contentPlatforms := [],
          taskPlatforms := [], responseStatus := "processing" } :=
  ⟨⟨by decide, by simp⟩,
   (empty_targets_amended (fun s => if s = "[]" then some [] else none)
      "clip.mp4" "" "cid" (by decide) (by simp)).1⟩

/-- C3, counterexample: for a two-target run the progress writes are
`[0, 0, 40, 100]` — progress is still 0 when the loop's first iteration
writes it (before any target work has concluded), no value in the claimed
liveness range 10-20 is ever written, and the write after the first
conclusion is `int((1/2)*80) = 40`, which matches
`base + floor((1/2)*(100-base))` for no base in 10-20. -/
theorem progress_liveness_constant_cex :
    (create_video_variants ["tiktok", "instagram"]
        [Outcome.success, Outcome.success] (some "processing")
        none).writes = [0, 0, 40, 100] ∧
    ¬ ∃ base ∈ Finset.Icc 10 20,
        (base ∈ ([0, 0, 40, 100] : List Nat) ∨
         40 = base + 1 * (100 - base) / 2) := by
  exact ⟨by decide, by decide⟩

/-- C3, amended: progress is initialised to 0 at entry creation; no
liveness constant is written; the loop writes
`progress = floor(80 * k / n)` before awaiting each task, where `k` is
the number of workers concluded so far (so the first such write is again
0), and the final write is 100 at finalization. -/
theorem progress_write_schedule_amended (ps : List String)
    (os : List Outcome) (s : String) (hl : os.length = ps.length) :
    (create_video_variants ps os (some s) none).writes =
      0 :: (List.range ps.length).map (fun k => 80 * k / ps.length)
        ++ [100] := by
  rw [create_none_writes ps os (some s)]
  simp [List.length_zip, hl]

/-- Witness for the C3 amended theorem at a concrete two-target run. -/
theorem progress_write_schedule_amended_witness :
    (([Outcome.success, Outcome.failure] : List Outcome).length =
      (["tiktok", "twitter"] : List String).length) ∧
    (create_video_variants ["tiktok", "twitter"]
        [Outcome.success, Outcome.failure] (some "x") none).writes =
      0 :: (List.range (["tiktok", "twitter"] : List String).length).map
            (fun k => 80 * k / (["tiktok", "twitter"] : List String).length)
        ++ [100] :=
  ⟨rfl, progress_write_schedule_amended ["tiktok", "twitter"]
          [Outcome.success, Outcome.failure] "x" rfl⟩

/-- C4, counterexample: nothing stops a job from being submitted with a
duplicated platform (the upload endpoint never validates the parsed
list), and when one duplicate succeeds while the other fails the
completed and failed sets both contain that platform — they are not
disjoint. -/
theorem job_sets_duplicate_target_cex :
    (create_video_variants ["tiktok", "tiktok"]
        [Outcome.success, Outcome.failure] (some "processing")
        none).entry.completed = ["tiktok"] ∧
    (create_video_variants ["tiktok", "tiktok"]
        [Outcome.success, Outcome.failure] (some "processing")
        none).entry.failed = ["tiktok"] ∧
    ¬ List.Disjoint
        (create_video_variants ["tiktok", "tiktok"]
          [Outcome.success, Outcome.failure] (some "processing")
          none).entry.completed
        (create_video_variants ["tiktok", "tiktok"]
          [Outcome.success, Outcome.failure] (some "processing")
          none).entry.failed := by
  refine ⟨by decide, by decide, ?_⟩
  intro h
  have hm1 : "tiktok" ∈ (create_video_variants ["tiktok", "tiktok"]
      [Outcome.success, Outcome.failure] (some "processing")
      none).entry.completed := by decide
  have hm2 : "tiktok" ∈ (create_video_variants ["tiktok", "tiktok"]
      [Outcome.success, Outcome.failure] (some "processing")
      none).entry.failed := by decide
  exact h hm1 hm2

/-- C4, amended: for every job whose requested target list has no
duplicate platform, at every point of the run the completed and failed
sets are disjoint subsets of the target list whose sizes sum to the
number of concluded workers (hence at most the number of targets), and
once the run finalizes into a terminal status the sizes sum to exactly
the number of targets. -/
theorem job_sets_invariant_amended (ps : List String) (os : List Outcome)
    (s : String) (hnd : ps.Nodup) (hl : os.length = ps.length) (i : Nat) :
    List.Disjoint (stateAfter ps os i).completed
      (stateAfter ps os i).failed ∧
    (stateAfter ps os i).completed ⊆ ps ∧
    (stateAfter ps os i).failed ⊆ ps ∧
    (stateAfter ps os i).completed.length +
      (stateAfter ps os i).failed.length = min i ps.length ∧
    (stateAfter ps os i).completed.length +
      (stateAfter ps os i).failed.length ≤ ps.length ∧
    ((create_video_variants ps os (some s) none).entry.completed.length +
      (create_video_variants ps os (some s) none).entry.failed.length
      = ps.length) ∧
    ((create_video_variants ps os (some s) none).entry.status = "completed"
      ∨ (create_video_variants ps os (some s) none).entry.status
        = "failed") := by
  have hzlen : (ps.zip os).length = ps.length := by
    rw [List.length_zip, hl]; exact min_self _
  have hmapfst : (ps.zip os).map Prod.fst = ps :=
    List.map_fst_zip ps os (le_of_eq hl.symm)
  have htake : ((ps.zip os).take i).map Prod.fst = ps.take i := by
    rw [List.map_take, hmapfst]
  have hnodup : (((ps.zip os).take i).map Prod.fst).Nodup := by
    rw [htake]; exact (List.take_sublist i ps).nodup hnd
  have hc := stateAfter_completed ps os i
  have hf := stateAfter_failed ps os i
  have hsub : ∀ (q : String × Outcome → Bool),
      ((((ps.zip os).take i).filter q).map Prod.fst) ⊆ ps := by
    intro q a ha
    obtain ⟨x, hx, hxa⟩ := List.mem_map.1 ha
    have hx' : a ∈ ((ps.zip os).take i).map Prod.fst :=
      List.mem_map.2 ⟨x, (List.mem_filter.1 hx).1, hxa⟩
    rw [htake] at hx'
    exact List.take_subset i ps hx'
  have hdisj : List.Disjoint (stateAfter ps os i).completed
      (stateAfter ps os i).failed := by
    rw [hc, hf]
    intro a hac haf
    obtain ⟨x, hx, hxa⟩ := List.mem_map.1 hac
    obtain ⟨y, hy, hya⟩ := List.mem_map.1 haf
    obtain ⟨hxl, hxp⟩ := List.mem_filter.1 hx
    obtain ⟨hyl, hyp⟩ := List.mem_filter.1 hy
    have hxy : x = y :=
      List.inj_on_of_nodup_map hnodup hxl hyl (by rw [hxa, hya])
    rw [hxy] at hxp
    simp [hxp] at hyp
  have hsum : (stateAfter ps os i).completed.length +
      (stateAfter ps os i).failed.length = min i ps.length := by
    rw [hc, hf, List.length_map, List.length_map,
      filter_length_split ((ps.zip os).take i), List.length_take, hzlen]
  have hfinal :
      (create_video_variants ps os (some s) none).entry.completed.length +
        (create_video_variants ps os (some s) none).entry.failed.length
        = ps.length := by
    rw [create_none_entry]
    simp only [List.length_map]
    rw [filter_length_split (ps.zip os), hzlen]
  refine ⟨hdisj, ?_, ?_, hsum, ?_, hfinal, ?_⟩
  · rw [hc]
    exact hsub (fun x => isSucc x.2)
  · rw [hf]
    exact hsub (fun x => ! isSucc x.2)
  · rw [hsum]; exact min_le_right _ _
  · by_cases hE : ((ps.zip os).filter
        (fun x => isSucc x.2)).map Prod.fst = []
    · exact Or.inr (by simp [create_none_entry, hE])
    · exact Or.inl (by simp [create_none_entry, hE])

/-- Witness for the C4 amended theorem at a concrete duplicate-free
partial-success run, observed after one conclusion. -/
theorem job_sets_invariant_amended_witness :
    ((["tiktok", "twitter"] : List String).Nodup ∧
     ([Outcome.success, Outcome.failure] : List Outcome).length =
       (["tiktok", "twitter"] : List String).length) ∧
    (List.Disjoint
        (stateAfter ["tiktok", "twitter"]
          [Outcome.success, Outcome.failure] 1).completed
        (stateAfter ["tiktok", "twitter"]
          [Outcome.success, Outcome.failure] 1).failed ∧
     (stateAfter ["tiktok", "twitter"]
        [Outcome.success, Outcome.failure] 1).completed
        ⊆ ["tiktok", "twitter"] ∧
     (stateAfter ["tiktok", "twitter"]
        [Outcome.success, Outcome.failure] 1).failed
        ⊆ ["tiktok", "twitter"] ∧
     (stateAfter ["tiktok", "twitter"]
        [Outcome.success, Outcome.failure] 1).completed.length +
       (stateAfter ["tiktok", "twitter"]
        [Outcome.success, Outcome.failure] 1).failed.length
       = min 1 (["tiktok", "twitter"] : List String).length ∧
     (stateAfter ["tiktok", "twitter"]
        [Outcome.success, Outcome.failure] 1).completed.length +
       (stateAfter ["tiktok", "twitter"]
        [Outcome.success, Outcome.failure] 1).failed.length
       ≤ (["tiktok", "twitter"] : List String).length ∧
     ((create_video_variants ["tiktok", "twitter"]
         [Outcome.success, Outcome.failure] (some "p")
         none).entry.completed.length +
       (create_video_variants ["tiktok", "twitter"]
         [Outcome.success, Outcome.failure] (some "p")
         none).entry.failed.length
       = (["tiktok", "twitter"] : List String).length) ∧
     ((create_video_variants ["tiktok", "twitter"]
         [Outcome.success, Outcome.failure] (some "p")
         none).entry.status = "completed" ∨
      (create_video_variants ["tiktok", "twitter"]
         [Outcome.success, Outcome.failure] (some "p")
         none).entry.status = "failed")) :=
  ⟨⟨by decide, rfl⟩,
   job_sets_invariant_amended ["tiktok", "twitter"]
     [Outcome.success, Outcome.failure] "p" (by decide) rfl 1⟩

/-- C5, counterexample: when the job's store entry is deleted by the
delete-content endpoint (videos.py lines 604-605) while the second
iteration of a two-target run is suspended in its await, the loop's next
entry accesses raise KeyError and the fatal handler (videos.py
lines 290-296) overwrites the entry with progress 0; the write sequence
is `[0, 0, 40, 0]` — it decreases from 40 to 0, and the entry reaches the
terminal status "failed" without 100 ever being written. -/
theorem progress_monotone_cex :
    (create_video_variants ["tiktok", "instagram"]
        [Outcome.success, Outcome.success] (some "processing")
        (some 1)).writes = [0, 0, 40, 0] ∧
    ¬ List.Chain' (· ≤ ·)
        (create_video_variants ["tiktok", "instagram"]
          [Outcome.success, Outcome.success] (some "processing")
          (some 1)).writes ∧
    100 ∉ (create_video_variants ["tiktok", "instagram"]
        [Outcome.success, Outcome.success] (some "processing")
        (some 1)).writes ∧
    (create_video_variants ["tiktok", "instagram"]
        [Outcome.success, Outcome.success] (some "processing")
        (some 1)).entry.status = "failed" ∧
    (create_video_variants ["tiktok", "instagram"]
        [Outcome.success, Outcome.success] (some "processing")
        (some 1)).entry.progress = 0 := by
  have hw : (create_video_variants ["tiktok", "instagram"]
      [Outcome.success, Outcome.success] (some "processing")
      (some 1)).writes = [0, 0, 40, 0] := by decide
  refine ⟨hw, ?_, by decide, by decide, by decide⟩
  rw [hw]
  simp [List.chain'_cons]

/-- C5, amended: in a run where the orchestrator's fatal handler never
fires, the progress write sequence is non-decreasing and 100 is written
exactly once, as the last write, at the finalization that also makes the
entry terminal; but when the entry is deleted concurrently during a
worker await, the fatal handler ends the run with the entry overwritten
to progress 0 and status "failed", the last write is 0, and 100 is never
written. -/
theorem progress_monotone_amended (ps : List String) (os : List Outcome)
    (s : String) :
    (List.Chain' (· ≤ ·)
        (create_video_variants ps os (some s) none).writes ∧
     (create_video_variants ps os (some s) none).writes.count 100 = 1 ∧
     (create_video_variants ps os (some s) none).writes.getLast?
       = some 100 ∧
     ((create_video_variants ps os (some s) none).entry.status
        = "completed" ∨
      (create_video_variants ps os (some s) none).entry.status
        = "failed")) ∧
    (∀ i, i < (ps.zip os).length →
      (create_video_variants ps os (some s) (some i)).entry.progress = 0 ∧
      (create_video_variants ps os (some s) (some i)).entry.status
        = "failed" ∧
      100 ∉ (create_video_variants ps os (some s) (some i)).writes ∧
      (create_video_variants ps os (some s) (some i)).writes.getLast?
        = some 0) := by
  have hmle : (ps.zip os).length ≤ ps.length := by
    rw [List.length_zip]; exact min_le_left _ _
  constructor
  · have hw := create_none_writes ps os (some s)
    have hmid : ∀ x ∈ (List.range (ps.zip os).length).map
        (fun j => 80 * j / ps.length), x ≤ 80 := by
      intro x hx
      obtain ⟨j, hj, rfl⟩ := List.mem_map.1 hx
      exact div80_le ps.length j
        (le_of_lt (lt_of_lt_of_le (List.mem_range.1 hj) hmle))
    have hnotmem : (100 : Nat) ∉ (List.range (ps.zip os).length).map
        (fun j => 80 * j / ps.length) := by
      intro h
      have := hmid _ h
      omega
    refine ⟨?_, ?_, ?_, ?_⟩
    · rw [hw, List.chain'_iff_pairwise]
      show List.Pairwise (· ≤ ·)
        (((0 : Nat) :: (List.range (ps.zip os).length).map
          (fun j => 80 * j / ps.length)) ++ [100])
      rw [List.pairwise_append]
      refine ⟨?_, by simp, ?_⟩
      · rw [List.pairwise_cons]
        refine ⟨fun b _ => Nat.zero_le b, ?_⟩
        rw [List.pairwise_map]
        refine List.Pairwise.imp ?_ (List.pairwise_lt_range _)
        intro a b hab
        exact Nat.div_le_div_right (Nat.mul_le_mul_left _ (le_of_lt hab))
      · intro a ha b hb
        rw [List.mem_singleton] at hb
        subst hb
        rcases List.mem_cons.1 ha with h | h
        · omega
        · exact le_trans (hmid a h) (by norm_num)
    · rw [hw]
      have hsplit :
          ((0 : Nat) :: (List.range (ps.zip os).length).map
              (fun j => 80 * j / ps.length) ++ [100]).count 100 =
            ((0 : Nat) :: (List.range (ps.zip os).length).map
              (fun j => 80 * j / ps.length)).count 100 +
              ([100] : List Nat).count 100 :=
        List.count_append _ _ _
      rw [hsplit, List.count_eq_zero.mpr ?_]
      · simp
      · intro h
        rcases List.mem_cons.1 h with h | h
        · omega
        · exact hnotmem h
    · rw [hw]
      exact getLast?_append_singleton _ _
    · by_cases hE : ((ps.zip os).filter
          (fun x => isSucc x.2)).map Prod.fst = []
      · exact Or.inr (by simp [create_none_entry, hE])
      · exact Or.inl (by simp [create_none_entry, hE])
  · intro i hi
    have hr := runLoop_some_proj ps.length (ps.zip os) i 0 initEntry [0] hi
    refine ⟨?_, ?_, ?_, ?_⟩
    · simp [create_video_variants, hr]
    · simp [create_video_variants, hr]
    · simp only [create_video_variants, hr]
      intro hmem
      simp at hmem
      obtain ⟨j, hj, hjeq⟩ := hmem
      have hjle : j ≤ ps.length := by omega
      have hle := div80_le ps.length j hjle
      omega
    · have hgl := getLast?_append_singleton
        ([0] ++ (List.range (i + 1)).map
          (fun j => 80 * (0 + j) / ps.length)) 0
      simpa [create_video_variants, hr] using hgl

/-- Witness for the C5 amended theorem: the fatal-path clause applied to
the concrete two-target run of the counterexample scenario. -/
theorem progress_monotone_amended_witness :
    (1 < ((["tiktok", "instagram"] : List String).zip
        ([Outcome.success, Outcome.success] : List Outcome)).length) ∧
    ((create_video_variants ["tiktok", "instagram"]
        [Outcome.success, Outcome.success] (some "processing")
        (some 1)).entry.progress = 0 ∧
     (create_video_variants ["tiktok", "instagram"]
        [Outcome.success, Outcome.success] (some "processing")
        (some 1)).entry.status = "failed" ∧
     100 ∉ (create_video_variants ["tiktok", "instagram"]
        [Outcome.success, Outcome.success] (some "processing")
        (some 1)).writes ∧
     (create_video_variants ["tiktok", "instagram"]
        [Outcome.success, Outcome.success] (some "processing")
        (some 1)).writes.getLast? = some 0) :=
  ⟨by decide,
   (progress_monotone_amended ["tiktok", "instagram"]
      [Outcome.success, Outcome.success] "processing").2 1 (by decide)⟩

end Capora
